import Mathlib

/-!
Verification of the Text UI primitive in src/packages/sdk/src/ui/text.js.

The file is shallowly embedded: JavaScript objects become association
lists of string keys, where spreading two objects is list concatenation
and key lookup takes the last binding (later spreads win, as in
JavaScript). Undefined is an explicit value constructor. Code that can
throw is embedded in Except. External collaborators that the component
only calls (the styling hook useStyledSystem, the theme) are universally
quantified parameters; collaborators of this repository whose code is not
under src are modelled from the spec and say so in their doc comments.
-/

namespace Blocks

/-- A JavaScript runtime value, as far as the Text component manipulates
one: strings, numbers, booleans, nested objects (association lists whose
later bindings shadow earlier ones) and the undefined value. -/
inductive JVal where
  | str (s : String)
  | num (n : Int)
  | boolean (b : Bool)
  | obj (fields : List (String × JVal))
  | undefinedV
deriving Repr

/-- A JavaScript object: keys to values, later bindings shadowing earlier
ones, so that the object spread of a then b is simply a ++ b. -/
abbrev StyleObj := List (String × JVal)

/-- Key lookup in an association list, taking the LAST binding for the
key: this models property lookup on a JavaScript object built by spreads,
where the later spread wins. Returns none when the key is absent, which
models reading an undefined property. -/
def lookupLast {α : Type} : List (String × α) → String → Option α
  | [], _ => none
  | kv :: rest, k =>
    match lookupLast rest k with
    | some v => some v
    | none => if kv.1 = k then some kv.2 else none

/-- Wrap an optional value the way a JavaScript expression reads an
optional: a missing value is the undefined value. -/
def jOpt : Option JVal → JVal
  | none => JVal.undefinedV
  | some v => v

/-- A rendered attribute value: React omits an attribute whose computed
value is undefined, so a present undefined and an absent key both render
as an absent attribute. -/
def presentValue : Option JVal → Option JVal
  | some JVal.undefinedV => none
  | some v => some v
  | none => none

/-- The TextVariants frozen object of text.js, as the list of its
values. -/
def TextVariants : List String := ["default", "paragraph"]

/-- The TextSizes frozen object of text.js, as the list of its values. -/
def TextSizes : List String := ["xsmall", "small", "default", "large"]

/-- The TextSizeProp union of text.js: a plain size string, or a
responsive prop object keyed by breakpoint name with size values. The
plain branch is recognised in the source by a typeof string test. -/
inductive TextSizeProp where
  | plain (s : String)
  | responsive (m : List (String × String))
deriving Repr, DecidableEq

/-- The slice of the ambient theme the component reads: the
textSizesByVariant table, keyed by variant name, each row keyed by size
name giving a style property object. -/
structure Theme where
  textSizesByVariant : List (String × List (String × StyleObj))
deriving Repr

/-- The error outcomes a render can have: a failed invariant assertion
(the invariant utility of this repository throws when its condition is
false, carrying the given message) or a JavaScript TypeError raised by
indexing into an undefined object. -/
inductive RenderError where
  | invariantViolation (msg : String)
  | typeError (msg : String)
deriving Repr, DecidableEq

/-- Modelled from the spec: getStylePropsForResponsiveProp
(src/packages/sdk/src/ui/system/utils/get_style_props_for_responsive_prop,
not provided in the sources). Per the spec it expands each breakpoint key
of the responsive prop to the theme table entry for the size value at
that breakpoint, producing a merged responsive style-property object; a
size with no table entry expands to undefined. -/
def getStylePropsForResponsiveProp
    (responsiveProp : List (String × String))
    (table : List (String × StyleObj)) : StyleObj :=
  responsiveProp.map (fun kv => (kv.1, jOpt ((lookupLast table kv.2).map JVal.obj)))

/-- Embedding of useTextSize of text.js. It reads the row of
textSizesByVariant at the variant; when the row is undefined (the variant
is not a key of the table), both branches of the source index into the
undefined row, which raises a TypeError, so the embedding raises it at
that point. Otherwise a plain size is looked up directly in the row (an
unknown size yields undefined, i.e. none, with no error), and a
responsive size is delegated to getStylePropsForResponsiveProp with the
row as table. -/
def useTextSize (theme : Theme) (textSizeProp : TextSizeProp) (variant : String) :
    Except RenderError (Option StyleObj) :=
  match lookupLast theme.textSizesByVariant variant with
  | none => Except.error (RenderError.typeError variant)
  | some textSizesForVariant =>
    match textSizeProp with
    | TextSizeProp.plain s => Except.ok (lookupLast textSizesForVariant s)
    | TextSizeProp.responsive m =>
      Except.ok (some (getStylePropsForResponsiveProp m textSizesForVariant))

/-- The cx utility of the emotion library, restricted to the call shape
of text.js: cx(classNameForStyleProps, className). It drops falsy
arguments (the empty string, an absent className) and joins the remaining
class names with one space, so the caller class name is appended after
the computed one. -/
def cx (a : String) (b : Option String) : String :=
  match b with
  | none => a
  | some s => if s = "" then a else if a = "" then s else a ++ " " ++ s

/-- The props of the Text component after the destructuring at the top of
the render function: the named props (absent means the caller passed
undefined or nothing), and styleProps, the rest object collecting every
remaining caller-supplied open style prop. children is an arbitrary type
since the component never inspects it. -/
structure TextProps (γ : Type) where
  as : Option String := none
  size : Option TextSizeProp := none
  variant : Option String := none
  children : Option γ := none
  id : Option JVal := none
  role : Option JVal := none
  dataAttributes : Option StyleObj := none
  className : Option String := none
  style : Option JVal := none
  ariaLabel : Option JVal := none
  ariaLabelledBy : Option JVal := none
  ariaDescribedBy : Option JVal := none
  ariaControls : Option JVal := none
  ariaExpanded : Option JVal := none
  ariaHasPopup : Option JVal := none
  ariaHidden : Option JVal := none
  ariaLive : Option JVal := none
  styleProps : StyleObj := []
deriving Repr

/-- The rendered host element: its tag, the props object the JSX element
expression builds for it (the forwarded ref is managed by React and never
becomes a DOM attribute, so it is not part of the attribute object), and
its sole child content. -/
structure RenderedElement (γ : Type) where
  tag : String
  attrs : StyleObj
  children : Option γ
deriving Repr

/-- The value of one attribute in the rendered DOM output of an element:
the last binding of the props object, with undefined rendering as
absent. -/
def RenderedElement.renderedAttr {γ : Type} (e : RenderedElement γ) (k : String) :
    Option JVal :=
  presentValue (lookupLast e.attrs k)

/-- The style object the render passes to the useStyledSystem hook: the
object spread of stylePropsForTextSize (spreading undefined contributes
nothing) followed by the caller-supplied rest style props, so the caller
binding is the later one for any shared key. -/
def mergedStyleProps (stylePropsForTextSize : Option StyleObj) (styleProps : StyleObj) :
    StyleObj :=
  (match stylePropsForTextSize with
   | none => []
   | some o => o) ++ styleProps

/-- The built-in attributes of the JSX element expression of text.js, in
source order, before dataAttributes is spread after them. The class
attribute is cx of the class name resolved by the styling hook and the
caller className. -/
def builtinAttrs {γ : Type} (classNameForStyleProps : String) (props : TextProps γ) :
    StyleObj :=
  [("id", jOpt props.id),
   ("className", JVal.str (cx classNameForStyleProps props.className)),
   ("style", jOpt props.style),
   ("role", jOpt props.role),
   ("aria-label", jOpt props.ariaLabel),
   ("aria-labelledby", jOpt props.ariaLabelledBy),
   ("aria-describedby", jOpt props.ariaDescribedBy),
   ("aria-controls", jOpt props.ariaControls),
   ("aria-expanded", jOpt props.ariaExpanded),
   ("aria-haspopup", jOpt props.ariaHasPopup),
   ("aria-hidden", jOpt props.ariaHidden),
   ("aria-live", jOpt props.ariaLive)]

/-- The names of the built-in attributes the JSX element sets before
dataAttributes is spread. -/
def builtinAttrNames : List String :=
  ["id", "className", "style", "role",
   "aria-label", "aria-labelledby", "aria-describedby", "aria-controls",
   "aria-expanded", "aria-haspopup", "aria-hidden", "aria-live"]

/-- The eight accessibility attribute names forwarded by the component. -/
def ariaAttrNames : List String :=
  ["aria-label", "aria-labelledby", "aria-describedby", "aria-controls",
   "aria-expanded", "aria-haspopup", "aria-hidden", "aria-live"]

/-- The aria prop of the destructured props that feeds the attribute of
the given name, pairing the eight destructured aria props with their
attribute names exactly as the source does. -/
def ariaPropOf {γ : Type} (props : TextProps γ) (k : String) : Option JVal :=
  if k = "aria-label" then props.ariaLabel
  else if k = "aria-labelledby" then props.ariaLabelledBy
  else if k = "aria-describedby" then props.ariaDescribedBy
  else if k = "aria-controls" then props.ariaControls
  else if k = "aria-expanded" then props.ariaExpanded
  else if k = "aria-haspopup" then props.ariaHasPopup
  else if k = "aria-hidden" then props.ariaHidden
  else if k = "aria-live" then props.ariaLive
  else none

/-- Embedding of the render function Text of text.js. The three invariant
calls of the source assert that as, size and variant are not undefined,
in that order, before any style resolution; the invariant utility of this
repository (src/packages/sdk/src/error_utils, not provided) is modelled
from the spec as throwing with the given message when its condition is
false, which the embedding expresses as the error branches of the three
matches. Then the size styles are resolved, merged under the caller style
props, turned into one class name by the styling hook, and the host
element is built with the built-in attributes followed by the spread of
dataAttributes (defaulted to the empty object by the destructuring). -/
def Text {γ : Type} (theme : Theme) (styledSystem : StyleObj → String)
    (props : TextProps γ) : Except RenderError (RenderedElement γ) :=
  match props.as with
  | none => Except.error (RenderError.invariantViolation "as")
  | some componentTag =>
    match props.size with
    | none => Except.error (RenderError.invariantViolation "size")
    | some size =>
      match props.variant with
      | none => Except.error (RenderError.invariantViolation "variant")
      | some variant =>
        match useTextSize theme size variant with
        | Except.error e => Except.error e
        | Except.ok stylePropsForTextSize =>
          Except.ok
            { tag := componentTag
              attrs :=
                builtinAttrs
                  (styledSystem (mergedStyleProps stylePropsForTextSize props.styleProps))
                  props ++ props.dataAttributes.getD []
              children := props.children }

/-- The defaultProps of ForwardedRefText: React substitutes the default
for a prop whose incoming value is undefined, so the public surface
always hands the render function a defined as, size and variant. -/
def applyDefaultProps {γ : Type} (props : TextProps γ) : TextProps γ :=
  { props with
    as := some (props.as.getD "p")
    size := some (props.size.getD (TextSizeProp.plain "default"))
    variant := some (props.variant.getD "default") }

/-- A render through the public surface: defaultProps applied, then the
render function. -/
def renderText {γ : Type} (theme : Theme) (styledSystem : StyleObj → String)
    (props : TextProps γ) : Except RenderError (RenderedElement γ) :=
  Text theme styledSystem (applyDefaultProps props)

/-- Modelled from the spec: the textSizesByVariant table of the ambient
theme (src/packages/sdk/src/ui/theme, not provided in the sources). Per
the spec the table is keyed by the two Variant enumeration members, each
row keyed by the four Size enumeration members; the spec fixes the
default default entry to fontSize 14, and the other entry values are
placeholder style objects (no claim depends on them, only on the key
structure and on entry identity). -/
def defaultTheme : Theme :=
  { textSizesByVariant :=
    [("default",
      [("xsmall", [("fontSize", JVal.num 11)]),
       ("small", [("fontSize", JVal.num 12)]),
       ("default", [("fontSize", JVal.num 14)]),
       ("large", [("fontSize", JVal.num 16)])]),
     ("paragraph",
      [("xsmall", [("fontSize", JVal.num 11), ("lineHeight", JVal.str "1.5")]),
       ("small", [("fontSize", JVal.num 12), ("lineHeight", JVal.str "1.5")]),
       ("default", [("fontSize", JVal.num 14), ("lineHeight", JVal.str "1.5")]),
       ("large", [("fontSize", JVal.num 16), ("lineHeight", JVal.str "1.5")])])] }

/-- A concrete styling hook for witnesses: resolves every style object to
one fixed class name. -/
def sysConst : StyleObj → String := fun _ => "cls"

/-! ## Helper lemmas on the object model -/

theorem lookupLast_append_some {α : Type} (a b : List (String × α)) (k : String)
    (v : α) (h : lookupLast b k = some v) : lookupLast (a ++ b) k = some v := by
  induction a with
  | nil => simpa using h
  | cons kv rest ih =>
    show lookupLast (kv :: (rest ++ b)) k = some v
    unfold lookupLast
    rw [ih]

theorem lookupLast_append_none {α : Type} (a b : List (String × α)) (k : String)
    (h : lookupLast b k = none) : lookupLast (a ++ b) k = lookupLast a k := by
  induction a with
  | nil => simpa using h
  | cons kv rest ih =>
    show lookupLast (kv :: (rest ++ b)) k = lookupLast (kv :: rest) k
    unfold lookupLast
    rw [ih]

theorem lookupLast_cons {α : Type} (kv : String × α) (rest : List (String × α))
    (k : String) :
    lookupLast (kv :: rest) k
      = (match lookupLast rest k with
         | some v => some v
         | none => if kv.1 = k then some kv.2 else none) := rfl

theorem lookupLast_responsive (row : List (String × StyleObj))
    (m : List (String × String)) (bp : String) :
    lookupLast (getStylePropsForResponsiveProp m row) bp
      = (lookupLast m bp).map (fun sz => jOpt ((lookupLast row sz).map JVal.obj)) := by
  induction m with
  | nil => rfl
  | cons kv rest ih =>
    have hc : getStylePropsForResponsiveProp (kv :: rest) row
        = (kv.1, jOpt ((lookupLast row kv.2).map JVal.obj))
            :: getStylePropsForResponsiveProp rest row := rfl
    rw [hc, lookupLast_cons, lookupLast_cons, ih]
    cases lookupLast rest bp with
    | some v => rfl
    | none =>
      by_cases hk : kv.1 = bp
      · simp [hk]
      · simp [hk]

theorem presentValue_jOpt (o : Option JVal) :
    presentValue (some (jOpt o)) = presentValue o := by
  cases o with
  | none => rfl
  | some v => rfl

/-- Inversion of a successful render: once the three props are defined
and the size resolution succeeds, the render function returns exactly the
element built from them. -/
theorem Text_eq_ok {γ : Type} (theme : Theme) (styledSystem : StyleObj → String)
    (props : TextProps γ) (componentTag : String) (size : TextSizeProp)
    (variant : String) (d : Option StyleObj)
    (h1 : props.as = some componentTag) (h2 : props.size = some size)
    (h3 : props.variant = some variant)
    (h4 : useTextSize theme size variant = Except.ok d) :
    Text theme styledSystem props = Except.ok
      { tag := componentTag
        attrs :=
          builtinAttrs
            (styledSystem (mergedStyleProps d props.styleProps)) props
            ++ props.dataAttributes.getD []
        children := props.children } := by
  unfold Text
  rw [h1, h2, h3]
  dsimp only
  rw [h4]

/-! ## The claims -/

/-- Claim C1: for every theme table, every variant of the TextVariants
enumeration (with its row in the table) and every plain size string of
the TextSizes enumeration, useTextSize returns exactly the theme table
entry at [variant][size], unchanged. -/
theorem useTextSize_plain_returns_table_entry (theme : Theme) (v s : String)
    (row : List (String × StyleObj))
    (_hv : v ∈ TextVariants) (_hs : s ∈ TextSizes)
    (hrow : lookupLast theme.textSizesByVariant v = some row) :
    useTextSize theme (TextSizeProp.plain s) v = Except.ok (lookupLast row s) := by
  unfold useTextSize
  rw [hrow]

/-- Witness for C1: variant default, size small, on the modelled default
theme, resolves to the small entry of the default row. -/
theorem useTextSize_plain_returns_table_entry_witness :
    useTextSize defaultTheme (TextSizeProp.plain "small") "default"
      = Except.ok (lookupLast
          [("xsmall", [("fontSize", JVal.num 11)]),
           ("small", [("fontSize", JVal.num 12)]),
           ("default", [("fontSize", JVal.num 14)]),
           ("large", [("fontSize", JVal.num 16)])] "small") :=
  useTextSize_plain_returns_table_entry defaultTheme "default" "small"
    [("xsmall", [("fontSize", JVal.num 11)]),
     ("small", [("fontSize", JVal.num 12)]),
     ("default", [("fontSize", JVal.num 14)]),
     ("large", [("fontSize", JVal.num 16)])]
    (by decide) (by decide) rfl

/-- Counterexample to claim C4 as stated: the out-of-enumeration variant
title is a defined string, yet the style lookup does not silently yield
an undefined result: indexing the undefined row raises a TypeError, a
reported failure. -/
theorem useTextSize_unknown_variant_raises :
    ("title" ∈ TextVariants → False)
      ∧ useTextSize defaultTheme (TextSizeProp.plain "default") "title"
          = Except.error (RenderError.typeError "title") :=
  ⟨by decide, rfl⟩

/-- Claim C4 as amended: for a defined out-of-enumeration size string and
a valid variant, the render performs no validation and reports no error:
on the modelled default theme the lookup silently yields an undefined
result. (For an out-of-enumeration variant the row lookup instead raises
a TypeError, per the counterexample.) -/
theorem useTextSize_unknown_size_silently_undefined (s v : String)
    (hs : s ∉ TextSizes) (hv : v ∈ TextVariants) :
    useTextSize defaultTheme (TextSizeProp.plain s) v = Except.ok none := by
  simp only [TextSizes, List.mem_cons, List.not_mem_nil, or_false, not_or] at hs
  obtain ⟨n1, n2, n3, n4⟩ := hs
  simp only [TextVariants, List.mem_cons, List.not_mem_nil, or_false] at hv
  rcases hv with rfl | rfl <;>
    simp [useTextSize, defaultTheme, lookupLast,
      Ne.symm n1, Ne.symm n2, Ne.symm n3, Ne.symm n4]

/-- Witness for C4 as amended: the out-of-enumeration size huge with the
valid variant default yields ok undefined, no failure. -/
theorem useTextSize_unknown_size_silently_undefined_witness :
    useTextSize defaultTheme (TextSizeProp.plain "huge") "default" = Except.ok none :=
  useTextSize_unknown_size_silently_undefined "huge" "default" (by decide) (by decide)

/-- Claim C6: for every theme table, valid variant with its row, and
responsive size mapping, useTextSize delegates to the responsive style
expansion routine applied to the mapping and the variant row, and the
expansion resolves each breakpoint key to the theme entry at the size the
mapping gives for that breakpoint. -/
theorem useTextSize_responsive_delegates (theme : Theme) (v : String)
    (row : List (String × StyleObj)) (m : List (String × String))
    (bp sz : String) (entry : StyleObj)
    (_hv : v ∈ TextVariants)
    (hrow : lookupLast theme.textSizesByVariant v = some row)
    (hbp : lookupLast m bp = some sz)
    (hentry : lookupLast row sz = some entry) :
    useTextSize theme (TextSizeProp.responsive m) v
      = Except.ok (some (getStylePropsForResponsiveProp m row))
    ∧ lookupLast (getStylePropsForResponsiveProp m row) bp
      = some (JVal.obj entry) := by
  constructor
  · unfold useTextSize
    rw [hrow]
  · rw [lookupLast_responsive, hbp]
    dsimp only [Option.map]
    rw [hentry]
    rfl

/-- Witness for C6: the example responsive mapping of the source doc
comment, at variant default on the modelled default theme; the breakpoint
mediumViewport maps to size small whose entry is fontSize 12. -/
theorem useTextSize_responsive_delegates_witness :
    useTextSize defaultTheme
      (TextSizeProp.responsive
        [("xsmallViewport", "xsmall"), ("smallViewport", "xsmall"),
         ("mediumViewport", "small"), ("largeViewport", "default")]) "default"
      = Except.ok (some (getStylePropsForResponsiveProp
          [("xsmallViewport", "xsmall"), ("smallViewport", "xsmall"),
           ("mediumViewport", "small"), ("largeViewport", "default")]
          [("xsmall", [("fontSize", JVal.num 11)]),
           ("small", [("fontSize", JVal.num 12)]),
           ("default", [("fontSize", JVal.num 14)]),
           ("large", [("fontSize", JVal.num 16)])]))
    ∧ lookupLast (getStylePropsForResponsiveProp
          [("xsmallViewport", "xsmall"), ("smallViewport", "xsmall"),
           ("mediumViewport", "small"), ("largeViewport", "default")]
          [("xsmall", [("fontSize", JVal.num 11)]),
           ("small", [("fontSize", JVal.num 12)]),
           ("default", [("fontSize", JVal.num 14)]),
           ("large", [("fontSize", JVal.num 16)])]) "mediumViewport"
      = some (JVal.obj [("fontSize", JVal.num 12)]) :=
  useTextSize_responsive_delegates defaultTheme "default"
    [("xsmall", [("fontSize", JVal.num 11)]),
     ("small", [("fontSize", JVal.num 12)]),
     ("default", [("fontSize", JVal.num 14)]),
     ("large", [("fontSize", JVal.num 16)])]
    [("xsmallViewport", "xsmall"), ("smallViewport", "xsmall"),
     ("mediumViewport", "small"), ("largeViewport", "default")]
    "mediumViewport" "small" [("fontSize", JVal.num 12)]
    (by decide) rfl rfl rfl

/-- Claim C2: the style object the render passes to the styling hook is
the size and variant derived style object spread first with the caller
rest style props spread last, so for any key the caller supplies, the
merged object holds the caller value; and the class attribute of the
element observes the hook applied to exactly that merged object, for
every hook. -/
theorem text_styleProps_caller_wins {γ : Type} (theme : Theme)
    (sys : StyleObj → String) (props : TextProps γ) (tag : String)
    (sz : TextSizeProp) (v : String) (d : Option StyleObj) (k : String) (val : JVal)
    (h1 : props.as = some tag) (h2 : props.size = some sz)
    (h3 : props.variant = some v)
    (h4 : useTextSize theme sz v = Except.ok d)
    (h5 : lookupLast props.styleProps k = some val)
    (h6 : lookupLast (props.dataAttributes.getD []) "className" = none) :
    lookupLast (mergedStyleProps d props.styleProps) k = some val
    ∧ (Text theme sys props).map (fun e => lookupLast e.attrs "className")
        = Except.ok (some (JVal.str
            (cx (sys (mergedStyleProps d props.styleProps)) props.className))) := by
  constructor
  · unfold mergedStyleProps
    exact lookupLast_append_some _ _ _ _ h5
  · rw [Text_eq_ok theme sys props tag sz v d h1 h2 h3 h4]
    dsimp only [Except.map]
    rw [lookupLast_append_none _ _ _ h6]
    rfl

/-- Concrete props for the C2 witness: the caller passes fontSize 20 as
an open style prop while the theme default entry carries fontSize 14. -/
def mergeWitnessProps : TextProps Unit :=
  { as := some "span"
    size := some (TextSizeProp.plain "default")
    variant := some "default"
    className := some "mine"
    styleProps := [("fontSize", JVal.num 20)] }

/-- Witness for C2: the merged object resolves fontSize to the caller
value 20, not the theme value 14, and the class attribute observes the
hook applied to the merged object. -/
theorem text_styleProps_caller_wins_witness :
    lookupLast (mergedStyleProps (some [("fontSize", JVal.num 14)])
        mergeWitnessProps.styleProps) "fontSize" = some (JVal.num 20)
    ∧ (Text defaultTheme sysConst mergeWitnessProps).map
        (fun e => lookupLast e.attrs "className")
      = Except.ok (some (JVal.str
          (cx (sysConst (mergedStyleProps (some [("fontSize", JVal.num 14)])
              mergeWitnessProps.styleProps))
            mergeWitnessProps.className))) :=
  text_styleProps_caller_wins defaultTheme sysConst mergeWitnessProps "span"
    (TextSizeProp.plain "default") "default" (some [("fontSize", JVal.num 14)])
    "fontSize" (JVal.num 20) rfl rfl rfl rfl rfl rfl

/-- Claim C5: dataAttributes is spread onto the host element after every
built-in attribute, so an entry of dataAttributes whose key equals a
built-in attribute name replaces the built-in value in the element props
object. -/
theorem text_dataAttributes_override {γ : Type} (theme : Theme)
    (sys : StyleObj → String) (props : TextProps γ) (tag : String)
    (sz : TextSizeProp) (v : String) (d : Option StyleObj) (k : String) (val : JVal)
    (h1 : props.as = some tag) (h2 : props.size = some sz)
    (h3 : props.variant = some v)
    (h4 : useTextSize theme sz v = Except.ok d)
    (_hk : k ∈ builtinAttrNames)
    (hdata : lookupLast (props.dataAttributes.getD []) k = some val) :
    (Text theme sys props).map (fun e => lookupLast e.attrs k)
      = Except.ok (some val) := by
  rw [Text_eq_ok theme sys props tag sz v d h1 h2 h3 h4]
  dsimp only [Except.map]
  rw [lookupLast_append_some _ _ _ _ hdata]

/-- Concrete props for the C5 witness: the caller sets the built-in role
prop to note and a dataAttributes entry for role to heading. -/
def dataWitnessProps : TextProps Unit :=
  { as := some "p"
    size := some (TextSizeProp.plain "default")
    variant := some "default"
    role := some (JVal.str "note")
    dataAttributes := some [("role", JVal.str "heading")] }

/-- Witness for C5: role is a built-in attribute name, and the
dataAttributes value heading replaces the built-in value note. -/
theorem text_dataAttributes_override_witness :
    (Text defaultTheme sysConst dataWitnessProps).map
        (fun e => lookupLast e.attrs "role")
      = Except.ok (some (JVal.str "heading")) :=
  text_dataAttributes_override defaultTheme sysConst dataWitnessProps "p"
    (TextSizeProp.plain "default") "default" (some [("fontSize", JVal.num 14)])
    "role" (JVal.str "heading") rfl rfl rfl rfl (by decide) rfl

/-- Claim C3 as amended: the three invariant assertions on as, size and
variant are checked in that order before any style resolution (their
outcomes depend on the props alone, not on the theme or the styling
hook), each fails exactly when its prop resolved to undefined, and
through the public surface, where defaultProps substitutes p, default and
default, no invariant failure is reachable; the render can however
additionally fail with a TypeError exactly when the three props are
defined and the defined variant has no row in the theme table. -/
theorem text_failure_modes {γ : Type} (theme : Theme) (sys : StyleObj → String)
    (props : TextProps γ) :
    (Text theme sys props = Except.error (RenderError.invariantViolation "as")
      ↔ props.as = none)
    ∧ (Text theme sys props = Except.error (RenderError.invariantViolation "size")
      ↔ props.as ≠ none ∧ props.size = none)
    ∧ (Text theme sys props = Except.error (RenderError.invariantViolation "variant")
      ↔ props.as ≠ none ∧ props.size ≠ none ∧ props.variant = none)
    ∧ (∀ p, renderText theme sys props ≠ Except.error (RenderError.invariantViolation p))
    ∧ (∀ v, props.variant = some v →
        (Text theme sys props = Except.error (RenderError.typeError v)
          ↔ props.as ≠ none ∧ props.size ≠ none
            ∧ lookupLast theme.textSizesByVariant v = none)) := by
  have hren : ∀ p, renderText theme sys props
      ≠ Except.error (RenderError.invariantViolation p) := by
    intro p
    unfold renderText applyDefaultProps Text
    dsimp only
    cases h : lookupLast theme.textSizesByVariant (props.variant.getD "default") with
    | none => simp [useTextSize, h]
    | some row =>
      rcases props.size with _ | sp
      · simp [useTextSize, h]
      · cases sp <;> simp [useTextSize, h]
  rcases has : props.as with _ | tag
  · refine ⟨?_, ?_, ?_, hren, ?_⟩ <;> simp [Text, has]
  · rcases hsz : props.size with _ | sp
    · refine ⟨?_, ?_, ?_, hren, ?_⟩ <;> simp [Text, has, hsz]
    · rcases hv : props.variant with _ | v
      · refine ⟨?_, ?_, ?_, hren, ?_⟩ <;> simp [Text, has, hsz, hv]
      · cases hrow : lookupLast theme.textSizesByVariant v with
        | none =>
          refine ⟨?_, ?_, ?_, hren, ?_⟩ <;>
            simp [Text, useTextSize, has, hsz, hv, hrow]
        | some row =>
          refine ⟨?_, ?_, ?_, hren, ?_⟩ <;>
            cases sp <;> simp [Text, useTextSize, has, hsz, hv, hrow]

/-- Concrete props for the C3 counterexample: only the variant is
supplied, with the defined out-of-enumeration value title. -/
def cexProps3 : TextProps Unit := { variant := some "title" }

/-- Counterexample to claim C3 as stated: through the public surface the
three props all resolve to defined values, yet the render fails, with a
TypeError for the out-of-enumeration variant title, so failure is not
equivalent to one of the three props being undefined. -/
theorem renderText_fails_with_defined_props :
    (applyDefaultProps cexProps3).as = some "p"
    ∧ (applyDefaultProps cexProps3).size = some (TextSizeProp.plain "default")
    ∧ (applyDefaultProps cexProps3).variant = some "title"
    ∧ renderText defaultTheme sysConst cexProps3
        = Except.error (RenderError.typeError "title") :=
  ⟨rfl, rfl, rfl, rfl⟩

/-- Claim C7 as amended: provided dataAttributes carries no className
entry, the class attribute of the host element is cx of the resolved
style class name and the caller className, and when both are nonempty
that is the resolved name, one space, then the caller name: the caller
className is appended to and never replaces the computed class name. -/
theorem text_className_concatenated {γ : Type} (theme : Theme)
    (sys : StyleObj → String) (props : TextProps γ) (tag : String)
    (sz : TextSizeProp) (v : String) (d : Option StyleObj) (c cn : String)
    (h1 : props.as = some tag) (h2 : props.size = some sz)
    (h3 : props.variant = some v)
    (h4 : useTextSize theme sz v = Except.ok d)
    (h5 : lookupLast (props.dataAttributes.getD []) "className" = none)
    (h6 : props.className = some c)
    (h7 : sys (mergedStyleProps d props.styleProps) = cn)
    (h8 : cn ≠ "") (h9 : c ≠ "") :
    (Text theme sys props).map (fun e => lookupLast e.attrs "className")
      = Except.ok (some (JVal.str (cn ++ " " ++ c))) := by
  rw [Text_eq_ok theme sys props tag sz v d h1 h2 h3 h4]
  dsimp only [Except.map]
  rw [lookupLast_append_none _ _ _ h5, h7]
  have hb : lookupLast (builtinAttrs cn props) "className"
      = some (JVal.str (cx cn props.className)) := rfl
  rw [hb, h6]
  unfold cx
  dsimp only
  rw [if_neg h9, if_neg h8]

/-- Concrete props for the C7 counterexample: a caller className mine
together with a dataAttributes entry for className. -/
def cexProps7 : TextProps Unit :=
  { as := some "p"
    size := some (TextSizeProp.plain "default")
    variant := some "default"
    className := some "mine"
    dataAttributes := some [("className", JVal.str "hijack")] }

/-- Counterexample to claim C7 as stated: a dataAttributes entry named
className replaces the whole class attribute in the rendered output, so
the class attribute is not always the concatenation of the computed class
name and the caller className (neither cls nor mine survives). -/
theorem text_className_replaced_by_dataAttribute :
    cexProps7.className = some "mine"
    ∧ (Text defaultTheme sysConst cexProps7).map
        (fun e => lookupLast e.attrs "className")
      = Except.ok (some (JVal.str "hijack")) :=
  ⟨rfl, rfl⟩

/-- Concrete props for the C7 witness: caller className mine and no
dataAttributes. -/
def classNameWitnessProps : TextProps Unit :=
  { as := some "p"
    size := some (TextSizeProp.plain "default")
    variant := some "default"
    className := some "mine" }

/-- Witness for C7 as amended: the resolved class name cls and the caller
className mine are concatenated with one space. -/
theorem text_className_concatenated_witness :
    (Text defaultTheme sysConst classNameWitnessProps).map
        (fun e => lookupLast e.attrs "className")
      = Except.ok (some (JVal.str ("cls" ++ " " ++ "mine"))) :=
  text_className_concatenated defaultTheme sysConst classNameWitnessProps "p"
    (TextSizeProp.plain "default") "default" (some [("fontSize", JVal.num 14)])
    "mine" "cls" rfl rfl rfl rfl rfl rfl rfl (by decide) (by decide)

/-- Claim C8: omitting as, size and variant lets defaultProps substitute
p, default and default: the public render produces a p element, and the
substituted size default resolves against the substituted variant default
to the theme entry at [default][default]. -/
theorem text_defaults {γ : Type} (theme : Theme) (sys : StyleObj → String)
    (props : TextProps γ) (row : List (String × StyleObj))
    (h1 : props.as = none) (h2 : props.size = none) (h3 : props.variant = none)
    (hrow : lookupLast theme.textSizesByVariant "default" = some row) :
    applyDefaultProps props
      = { props with
          as := some "p"
          size := some (TextSizeProp.plain "default")
          variant := some "default" }
    ∧ (renderText theme sys props).map (fun e => e.tag) = Except.ok "p"
    ∧ useTextSize theme (TextSizeProp.plain "default") "default"
        = Except.ok (lookupLast row "default") := by
  have huts : useTextSize theme (TextSizeProp.plain "default") "default"
      = Except.ok (lookupLast row "default") := by
    unfold useTextSize
    rw [hrow]
  have ha : (applyDefaultProps props).as = some "p" := by
    simp [applyDefaultProps, h1]
  have hs : (applyDefaultProps props).size = some (TextSizeProp.plain "default") := by
    simp [applyDefaultProps, h2]
  have hv : (applyDefaultProps props).variant = some "default" := by
    simp [applyDefaultProps, h3]
  refine ⟨?_, ?_, huts⟩
  · simp [applyDefaultProps, h1, h2, h3]
  · unfold renderText
    rw [Text_eq_ok theme sys (applyDefaultProps props) "p"
      (TextSizeProp.plain "default") "default" (lookupLast row "default")
      ha hs hv huts]
    rfl

/-- Witness for C8: the empty props object through the public surface on
the modelled default theme. -/
theorem text_defaults_witness :
    applyDefaultProps ({} : TextProps Unit)
      = { ({} : TextProps Unit) with
          as := some "p"
          size := some (TextSizeProp.plain "default")
          variant := some "default" }
    ∧ (renderText defaultTheme sysConst ({} : TextProps Unit)).map (fun e => e.tag)
        = Except.ok "p"
    ∧ useTextSize defaultTheme (TextSizeProp.plain "default") "default"
        = Except.ok (lookupLast
            [("xsmall", [("fontSize", JVal.num 11)]),
             ("small", [("fontSize", JVal.num 12)]),
             ("default", [("fontSize", JVal.num 14)]),
             ("large", [("fontSize", JVal.num 16)])] "default") :=
  text_defaults defaultTheme sysConst ({} : TextProps Unit)
    [("xsmall", [("fontSize", JVal.num 11)]),
     ("small", [("fontSize", JVal.num 12)]),
     ("default", [("fontSize", JVal.num 14)]),
     ("large", [("fontSize", JVal.num 16)])]
    rfl rfl rfl rfl

/-- The built-in attribute list binds each aria attribute name to the
corresponding destructured aria prop, read as a JavaScript optional. -/
theorem builtinAttrs_aria_lookup {γ : Type} (cn : String) (props : TextProps γ)
    (k : String) (hk : k ∈ ariaAttrNames) :
    lookupLast (builtinAttrs cn props) k = some (jOpt (ariaPropOf props k)) := by
  simp only [ariaAttrNames, List.mem_cons, List.not_mem_nil, or_false] at hk
  rcases hk with rfl | rfl | rfl | rfl | rfl | rfl | rfl | rfl <;> rfl

/-- Claim C9 as amended: for each of the eight aria attribute names,
provided dataAttributes carries no entry of that name, the rendered
attribute equals the corresponding prop passed verbatim: supplied with a
defined value it appears unmodified, omitted (or supplied as the
undefined value, which React renders as absent) the attribute is absent
from the rendered element. -/
theorem text_aria_forwarding {γ : Type} (theme : Theme) (sys : StyleObj → String)
    (props : TextProps γ) (tag : String) (sz : TextSizeProp) (v : String)
    (d : Option StyleObj) (k : String)
    (h1 : props.as = some tag) (h2 : props.size = some sz)
    (h3 : props.variant = some v)
    (h4 : useTextSize theme sz v = Except.ok d)
    (hk : k ∈ ariaAttrNames)
    (hdata : lookupLast (props.dataAttributes.getD []) k = none) :
    (Text theme sys props).map (fun e => e.renderedAttr k)
      = Except.ok (presentValue (ariaPropOf props k)) := by
  rw [Text_eq_ok theme sys props tag sz v d h1 h2 h3 h4]
  dsimp only [Except.map, RenderedElement.renderedAttr]
  rw [lookupLast_append_none _ _ _ hdata, builtinAttrs_aria_lookup _ props k hk]
  exact congrArg Except.ok (presentValue_jOpt _)

/-- Concrete props for the C9 counterexample: aria-label is omitted while
dataAttributes carries an aria-label entry. -/
def cexProps9 : TextProps Unit :=
  { as := some "p"
    size := some (TextSizeProp.plain "default")
    variant := some "default"
    dataAttributes := some [("aria-label", JVal.str "x")] }

/-- Counterexample to claim C9 as stated: the aria-label prop is omitted,
yet the aria-label attribute is present on the rendered element, carrying
the dataAttributes value spread after the built-in attributes. -/
theorem text_aria_overridden_by_dataAttribute :
    cexProps9.ariaLabel = none
    ∧ (Text defaultTheme sysConst cexProps9).map
        (fun e => e.renderedAttr "aria-label")
      = Except.ok (some (JVal.str "x")) :=
  ⟨rfl, rfl⟩

/-- Concrete props for the C9 witness: aria-label supplied as hello,
every other aria prop and dataAttributes omitted. -/
def ariaWitnessProps : TextProps Unit :=
  { as := some "p"
    size := some (TextSizeProp.plain "default")
    variant := some "default"
    ariaLabel := some (JVal.str "hello") }

/-- Witness for C9 as amended: the supplied aria-label appears verbatim
on the rendered element. -/
theorem text_aria_forwarding_witness :
    (Text defaultTheme sysConst ariaWitnessProps).map
        (fun e => e.renderedAttr "aria-label")
      = Except.ok (some (JVal.str "hello")) :=
  text_aria_forwarding defaultTheme sysConst ariaWitnessProps "p"
    (TextSizeProp.plain "default") "default" (some [("fontSize", JVal.num 14)])
    "aria-label" rfl rfl rfl rfl (by decide) rfl

/-- Claim C10: the children prop is forwarded unchanged as the sole
content of the rendered host element. -/
theorem text_children_forwarded {γ : Type} (theme : Theme)
    (sys : StyleObj → String) (props : TextProps γ) (tag : String)
    (sz : TextSizeProp) (v : String) (d : Option StyleObj)
    (h1 : props.as = some tag) (h2 : props.size = some sz)
    (h3 : props.variant = some v)
    (h4 : useTextSize theme sz v = Except.ok d) :
    (Text theme sys props).map (fun e => e.children) = Except.ok props.children := by
  rw [Text_eq_ok theme sys props tag sz v d h1 h2 h3 h4]
  rfl

/-- Concrete props for the C10 witness: string children. -/
def childrenWitnessProps : TextProps String :=
  { as := some "p"
    size := some (TextSizeProp.plain "default")
    variant := some "default"
    children := some "hello world" }

/-- Witness for C10: the child string comes out of the render exactly as
it went in. -/
theorem text_children_forwarded_witness :
    (Text defaultTheme sysConst childrenWitnessProps).map (fun e => e.children)
      = Except.ok childrenWitnessProps.children :=
  text_children_forwarded defaultTheme sysConst childrenWitnessProps "p"
    (TextSizeProp.plain "default") "default" (some [("fontSize", JVal.num 14)])
    rfl rfl rfl rfl

end Blocks
